import Mathlib

/-!
Shallow embedding of the sandbox lifecycle controller of `modal_app.py`
(opencode-modal).

The pure data of the program is translated directly.  The two effectful
collaborators — the Modal execution platform and the registry file on the
shared volume — are made explicit:

* `World` carries the registry backing object (which may be missing or
  unparsable), the set of currently live platform handles, and fresh-name
  counters (standing in for `uuid.uuid4()` and the platform-assigned
  `sb.object_id`).
* Each operation additionally consumes a `Faults` record saying which of
  the platform calls it performs raise an exception, and returns the list
  of platform/registry `Event`s it issued, in order, so that ordering
  properties ("snapshot recorded before terminate", "old instance
  terminated before the new one is created") are statable.
* Handles (`modal_sandbox_id`, i.e. `sb.object_id`) are modelled as `Nat`;
  the snapshot image id returned by `sb.snapshot_filesystem()` is modelled
  as a string derived from the handle.
* Python `float` cpu counts are modelled as `ℚ`, Python `int`s as `ℤ`.
-/

namespace OpencodeModal

def VOLUME_MOUNT : String := "/data"

def WORKSPACE_ROOT : String := VOLUME_MOUNT ++ "/workspaces"

def OPENCODE_PORT : Nat := 4096

def SANDBOX_TIMEOUT : Nat := 24 * 60 * 60

/-- A registry entry, as created by `_create_sandbox` and stored in
`registry.json`.  `snapshot_image_id` is `none` while the optional key is
absent from the JSON object. -/
structure Entry where
  id : String
  name : String
  modal_sandbox_id : Nat
  created_at : String
  cpu : Rat
  memory : Int
  gpu_type : String
  gpu_count : Int
  snapshot_image_id : Option String := none
deriving DecidableEq

/-- The registry backing object on the volume: it may not exist yet
(`FileNotFoundError`), be unparsable (`json.JSONDecodeError`), or hold a
list of entries. -/
inductive RegistryFile where
  | missing
  | corrupt
  | stored (entries : List Entry)
deriving DecidableEq

/-- A boot image for a sandbox: the base `sandbox_image` or a filesystem
snapshot image identified by its object id. -/
inductive Image where
  | base
  | snapshot (ref : String)
deriving DecidableEq

/-- The explicit state threaded through the operations. -/
structure World where
  registryFile : RegistryFile
  live : List Nat
  nextHandle : Nat
  nextId : Nat
deriving DecidableEq

/-- The resource/image part of a platform `modal.Sandbox.create` request. -/
structure CreateRequest where
  name : String
  cpu : Rat
  memory : Int
  gpu : Option String
  image : Image
  workdir : String
  port : Nat
  timeout : Nat
deriving DecidableEq

/-- The observable calls an operation makes, in order. -/
inductive Event where
  | createCall (h : Nat) (req : CreateRequest)
  | snapshotCall (h : Nat) (ref : String)
  | registryWrite (entries : List Entry)
  | terminateCall (h : Nat)
  | removeFileCall (path : String)
deriving DecidableEq

/-- Which of the platform calls an operation makes raise an exception
during that operation. -/
structure Faults where
  createFails : Bool := false
  pollFails : Bool := false
  snapshotFails : Bool := false
  writeFails : Bool := false
  terminateFails : Bool := false
  imageFails : Bool := false
  removeFileFails : Bool := false
deriving DecidableEq

/-- Parsing the registry backing object: the stored list, or `[]` when
the file is missing or unparsable. -/
@[simp] def parseRegistry : RegistryFile → List Entry
  | RegistryFile.stored es => es
  | RegistryFile.missing => []
  | RegistryFile.corrupt => []

/-- `_read_registry`: returns the parsed list, or `[]` when the file is
missing or unparsable. -/
def _read_registry (w : World) : List Entry :=
  parseRegistry w.registryFile

/-- `_write_registry`: full replace of the backing object. -/
def _write_registry (entries : List Entry) (w : World) : World × List Event :=
  ({ w with registryFile := RegistryFile.stored entries },
   [Event.registryWrite entries])

/-- `_add_registry_entry`: load, append, replace. -/
def _add_registry_entry (entry : Entry) (w : World) : World × List Event :=
  _write_registry (_read_registry w ++ [entry]) w

/-- `_get_registry_entry`: first entry whose id matches, else `None`. -/
def _get_registry_entry (sandbox_id : String) (w : World) : Option Entry :=
  (_read_registry w).find? (fun e => e.id == sandbox_id)

/-- `_remove_registry_entry`: keep exactly the entries whose id differs. -/
def _remove_registry_entry (sandbox_id : String) (w : World) : World × List Event :=
  _write_registry ((_read_registry w).filter (fun e => e.id != sandbox_id)) w

/-- The gpu argument passed to `modal.Sandbox.create`, shared verbatim by
`_create_sandbox` and `_start_sandbox`:
`gpu = f"{gpu_type}:{gpu_count}" if gpu_count > 1 else gpu_type` guarded by
`if gpu_type and gpu_count > 0`. -/
def gpuSpec (gpu_type : String) (gpu_count : Int) : Option String :=
  if gpu_type ≠ "" ∧ 0 < gpu_count then
    some (if 1 < gpu_count then gpu_type ++ ":" ++ toString gpu_count else gpu_type)
  else none

/-- `_create_sandbox`: allocate a fresh id, call platform create, then
append the new entry to the registry.  When the platform create call
raises, the error propagates and nothing else runs. -/
def _create_sandbox (name : String) (cpu : Rat) (memory : Int)
    (gpu_type : String) (gpu_count : Int) (fa : Faults) (w : World) :
    Except Unit Entry × World × List Event :=
  let sandbox_id := toString w.nextId
  let workspace_dir := WORKSPACE_ROOT ++ "/" ++ sandbox_id
  let req : CreateRequest :=
    { name := "opencode-" ++ sandbox_id, cpu := cpu, memory := memory,
      gpu := gpuSpec gpu_type gpu_count, image := Image.base,
      workdir := workspace_dir, port := OPENCODE_PORT,
      timeout := SANDBOX_TIMEOUT }
  if fa.createFails then (Except.error (), w, [])
  else
    let h := w.nextHandle
    let w1 : World :=
      { w with live := w.live ++ [h], nextHandle := w.nextHandle + 1,
               nextId := w.nextId + 1 }
    let entry : Entry :=
      { id := sandbox_id, name := name, modal_sandbox_id := h,
        created_at := "", cpu := cpu, memory := memory,
        gpu_type := gpu_type, gpu_count := gpu_count,
        snapshot_image_id := none }
    let q := _add_registry_entry entry w1
    (Except.ok entry, q.1, Event.createCall h req :: q.2)

/-- `_get_sandbox_status`: "running" only when `from_id`/`poll` neither
raise nor report an exit code; any exception yields "stopped". -/
def _get_sandbox_status (entry : Entry) (pollFails : Bool)
    (live : List Nat) : String :=
  if pollFails then "stopped"
  else if entry.modal_sandbox_id ∈ live then "running"
  else "stopped"

/-- The read path of the `dashboard` route: annotate every registry entry
with its observed status; each poll is independent (`pollFailsOf` says
which entries' polls raise). -/
def dashboard (pollFailsOf : Entry → Bool) (w : World) :
    List (Entry × String) :=
  (_read_registry w).map
    (fun entry => (entry, _get_sandbox_status entry (pollFailsOf entry) w.live))

/-- The object id of the snapshot image the platform returns for handle
`h` (deterministic stand-in for `snapshot_image.object_id`). -/
def snapshotRefFor (h : Nat) : String := "im-" ++ toString h

/-- The update loop inside `_snapshot_and_terminate`: set
`snapshot_image_id` on the first entry whose id matches, then break. -/
def setSnapshotId : List Entry → String → String → List Entry
  | [], _, _ => []
  | e :: rest, sid, ref =>
    if e.id = sid then { e with snapshot_image_id := some ref } :: rest
    else e :: setSnapshotId rest sid ref

/-- The update loop inside `_start_sandbox`: set `modal_sandbox_id` on the
first entry whose id matches, then break. -/
def setHandleFirst : List Entry → String → Nat → List Entry
  | [], _, _ => []
  | e :: rest, sid, h =>
    if e.id = sid then { e with modal_sandbox_id := h } :: rest
    else e :: setHandleFirst rest sid h

/-- `_snapshot_and_terminate`: try to snapshot and record the snapshot id
in the registry (failures of either step are swallowed), then terminate.
`sb.terminate()` is outside the try block, so its failure propagates as
`Except.error` with the partial state kept. -/
def _snapshot_and_terminate (sb : Nat) (sandbox_id : String) (fa : Faults)
    (w : World) : Except Unit Unit × World × List Event :=
  let p : World × List Event :=
    if fa.snapshotFails then (w, [])
    else
      let ref := snapshotRefFor sb
      let entries := setSnapshotId (_read_registry w) sandbox_id ref
      if fa.writeFails then (w, [Event.snapshotCall sb ref])
      else
        let q := _write_registry entries w
        (q.1, Event.snapshotCall sb ref :: q.2)
  if fa.terminateFails then (Except.error (), p.1, p.2)
  else
    (Except.ok (),
     { p.1 with live := p.1.live.filter (fun x => x != sb) },
     p.2 ++ [Event.terminateCall sb])

/-- `_resolve_sandbox_image`: the snapshot image if a (truthy) snapshot id
is recorded and `modal.Image.from_id` does not raise, else the base
image. -/
def _resolve_sandbox_image (entry : Entry) (imageFails : Bool) : Image :=
  match entry.snapshot_image_id with
  | some sid =>
      if sid ≠ "" ∧ imageFails = false then Image.snapshot sid else Image.base
  | none => Image.base

/-- The first phase of `_start_sandbox` (the initial try/except block):
if the recorded handle is still observed live, snapshot-then-terminate it
and re-read the entry; any exception in the block is swallowed. -/
def _start_phase1 (entry : Entry) (fa : Faults) (w : World) :
    Entry × World × List Event :=
  if fa.pollFails then (entry, w, [])
  else if entry.modal_sandbox_id ∈ w.live then
    let r := _snapshot_and_terminate entry.modal_sandbox_id entry.id fa w
    match r.1 with
    | Except.ok _ => ((_get_registry_entry entry.id r.2.1).getD entry, r.2.1, r.2.2)
    | Except.error _ => (entry, r.2.1, r.2.2)
  else (entry, w, [])

/-- `_start_sandbox`: stop the old instance if needed, choose the boot
image, call platform create with the entry's recorded resources, then
record the new handle in the registry. -/
def _start_sandbox (entry : Entry) (fa : Faults) (w : World) :
    Except Unit Entry × World × List Event :=
  let p := _start_phase1 entry fa w
  let entry1 := p.1
  let w1 := p.2.1
  let tr1 := p.2.2
  let sandbox_id := entry1.id
  let workspace_dir := WORKSPACE_ROOT ++ "/" ++ sandbox_id
  let gpu := gpuSpec entry1.gpu_type entry1.gpu_count
  let image := _resolve_sandbox_image entry1 fa.imageFails
  if fa.createFails then (Except.error (), w1, tr1)
  else
    let h := w1.nextHandle
    let req : CreateRequest :=
      { name := "opencode-" ++ sandbox_id, cpu := entry1.cpu,
        memory := entry1.memory, gpu := gpu, image := image,
        workdir := workspace_dir, port := OPENCODE_PORT,
        timeout := SANDBOX_TIMEOUT }
    let w2 : World := { w1 with live := w1.live ++ [h], nextHandle := w1.nextHandle + 1 }
    let entries := setHandleFirst (_read_registry w2) sandbox_id h
    let q := _write_registry entries w2
    (Except.ok { entry1 with modal_sandbox_id := h }, q.1,
     tr1 ++ Event.createCall h req :: q.2)

/-- `_delete_sandbox`: best-effort terminate, best-effort workspace
removal, then unconditionally remove the entry from the registry. -/
def _delete_sandbox (entry : Entry) (fa : Faults) (w : World) :
    World × List Event :=
  let p : World × List Event :=
    if fa.pollFails then (w, [])
    else if entry.modal_sandbox_id ∈ w.live then
      if fa.terminateFails then (w, [])
      else ({ w with live := w.live.filter (fun x => x != entry.modal_sandbox_id) },
            [Event.terminateCall entry.modal_sandbox_id])
    else (w, [])
  let tr2 : List Event :=
    if fa.removeFileFails then []
    else [Event.removeFileCall ("workspaces/" ++ entry.id)]
  let q := _remove_registry_entry entry.id p.1
  (q.1, p.2 ++ tr2 ++ q.2)

/-- The `stop_sandbox` route: look the entry up; when its handle is
observed live, snapshot-and-terminate; every exception in the block is
swallowed. -/
def stop_sandbox (sandbox_id : String) (fa : Faults) (w : World) :
    World × List Event :=
  match _get_registry_entry sandbox_id w with
  | none => (w, [])
  | some entry =>
    if fa.pollFails then (w, [])
    else if entry.modal_sandbox_id ∈ w.live then
      let r := _snapshot_and_terminate entry.modal_sandbox_id sandbox_id fa w
      (r.2.1, r.2.2)
    else (w, [])

/-- The `delete_sandbox` route: look the entry up and delete it when
present. -/
def delete_sandbox (sandbox_id : String) (fa : Faults) (w : World) :
    World × List Event :=
  match _get_registry_entry sandbox_id w with
  | none => (w, [])
  | some entry => _delete_sandbox entry fa w

/-- Sample entry used by the witnesses: no GPU, no snapshot. -/
def sampleEntry : Entry :=
  { id := "abc", name := "proj-a", modal_sandbox_id := 5,
    created_at := "2025-01-01T00:00:00Z", cpu := 2, memory := 4096,
    gpu_type := "", gpu_count := 0, snapshot_image_id := none }

/-- Sample entry used by the witnesses: GPU and snapshot recorded; its
handle is not live in `sampleWorld`. -/
def otherEntry : Entry :=
  { id := "xyz", name := "proj-b", modal_sandbox_id := 7,
    created_at := "2025-01-02T00:00:00Z", cpu := 4, memory := 8192,
    gpu_type := "A100", gpu_count := 2, snapshot_image_id := some "im-7" }

/-- Sample world used by the witnesses. -/
def sampleWorld : World :=
  { registryFile := RegistryFile.stored [sampleEntry, otherEntry],
    live := [5], nextHandle := 9, nextId := 3 }

/-- The all-calls-succeed fault assignment. -/
def noFaults : Faults := {}

/-- Faults where only the platform create call raises. -/
def failCreate : Faults := { createFails := true }

/-- C7: load() of the registry returns the empty sequence when the backing
object is missing or unparsable, and the recorded sequence of entries
otherwise. -/
theorem load_tolerates_missing_or_corrupt (w : World) :
    (w.registryFile = RegistryFile.missing → _read_registry w = []) ∧
    (w.registryFile = RegistryFile.corrupt → _read_registry w = []) ∧
    (∀ es, w.registryFile = RegistryFile.stored es → _read_registry w = es) := by
  refine ⟨fun h => ?_, fun h => ?_, fun es h => ?_⟩ <;> simp [_read_registry, h]

theorem load_tolerates_witness :
    _read_registry { registryFile := RegistryFile.corrupt, live := [], nextHandle := 0, nextId := 0 } = [] ∧
    _read_registry { registryFile := RegistryFile.missing, live := [], nextHandle := 0, nextId := 0 } = [] ∧
    _read_registry sampleWorld = [sampleEntry, otherEntry] :=
  ⟨(load_tolerates_missing_or_corrupt _).2.1 rfl,
   (load_tolerates_missing_or_corrupt _).1 rfl,
   (load_tolerates_missing_or_corrupt sampleWorld).2.2 _ rfl⟩

/-- C10: registry entry removal deletes every entry whose id equals the
given id (even duplicates) and keeps all other entries, unchanged and in
their original relative order (the result is the filtered sublist). -/
theorem remove_registry_entry_filter_spec (sandbox_id : String) (w : World) :
    _read_registry (_remove_registry_entry sandbox_id w).1 =
      (_read_registry w).filter (fun e => e.id != sandbox_id) ∧
    (∀ e ∈ _read_registry (_remove_registry_entry sandbox_id w).1, e.id ≠ sandbox_id) ∧
    List.Sublist (_read_registry (_remove_registry_entry sandbox_id w).1) (_read_registry w) ∧
    (∀ e ∈ _read_registry w, e.id ≠ sandbox_id →
      e ∈ _read_registry (_remove_registry_entry sandbox_id w).1) := by
  have hr : _read_registry (_remove_registry_entry sandbox_id w).1 =
      (_read_registry w).filter (fun e => e.id != sandbox_id) := by
    simp [_remove_registry_entry, _write_registry, _read_registry]
  refine ⟨hr, ?_, ?_, ?_⟩
  · intro e he
    rw [hr] at he
    simpa using (List.of_mem_filter he)
  · rw [hr]; exact List.filter_sublist _
  · intro e he hne
    rw [hr]
    exact List.mem_filter.mpr ⟨he, by simpa using hne⟩

theorem remove_registry_witness :
    _read_registry (_remove_registry_entry "abc" sampleWorld).1 = [otherEntry] ∧
    otherEntry ∈ _read_registry (_remove_registry_entry "abc" sampleWorld).1 := by
  have h := remove_registry_entry_filter_spec "abc" sampleWorld
  refine ⟨?_, h.2.2.2 otherEntry (by decide) (by decide)⟩
  rw [h.1]; decide

/-- C1: when the platform create call fails, create propagates the error
and leaves the world (in particular the registry) unchanged; on success
the entry is appended to the registry only after the handle was acquired
(the create call strictly precedes the registry write in the trace). -/
theorem create_failure_propagates_no_partial_entry (name : String)
    (cpu : Rat) (memory : Int) (gpu_type : String) (gpu_count : Int)
    (fa : Faults) (w : World) :
    (fa.createFails = true →
      _create_sandbox name cpu memory gpu_type gpu_count fa w =
        (Except.error (), w, [])) ∧
    (fa.createFails = false →
      ∃ h req entry,
        (_create_sandbox name cpu memory gpu_type gpu_count fa w).1 = Except.ok entry ∧
        entry.modal_sandbox_id = h ∧
        (_create_sandbox name cpu memory gpu_type gpu_count fa w).2.2 =
          [Event.createCall h req,
           Event.registryWrite (_read_registry w ++ [entry])]) := by
  constructor
  · intro h
    simp [_create_sandbox, h]
  · intro h
    refine ⟨w.nextHandle,
      { name := "opencode-" ++ toString w.nextId, cpu := cpu, memory := memory,
        gpu := gpuSpec gpu_type gpu_count, image := Image.base,
        workdir := WORKSPACE_ROOT ++ "/" ++ toString w.nextId,
        port := OPENCODE_PORT, timeout := SANDBOX_TIMEOUT },
      { id := toString w.nextId, name := name, modal_sandbox_id := w.nextHandle,
        created_at := "", cpu := cpu, memory := memory, gpu_type := gpu_type,
        gpu_count := gpu_count, snapshot_image_id := none }, ?_, rfl, ?_⟩ <;>
      simp [_create_sandbox, _add_registry_entry, _write_registry, _read_registry, h]

theorem create_failure_witness :
    _create_sandbox "proj-c" 4 4096 "" 0 failCreate sampleWorld =
      (Except.error (), sampleWorld, []) ∧
    (∃ h req entry,
      (_create_sandbox "proj-c" 4 4096 "" 0 noFaults sampleWorld).1 = Except.ok entry ∧
      entry.modal_sandbox_id = h ∧
      (_create_sandbox "proj-c" 4 4096 "" 0 noFaults sampleWorld).2.2 =
        [Event.createCall h req,
         Event.registryWrite (_read_registry sampleWorld ++ [entry])]) :=
  ⟨(create_failure_propagates_no_partial_entry "proj-c" 4 4096 "" 0 failCreate sampleWorld).1 rfl,
   (create_failure_propagates_no_partial_entry "proj-c" 4 4096 "" 0 noFaults sampleWorld).2 rfl⟩

/-- C5: the read path reports an entry as running only when the poll
succeeds and affirmatively confirms liveness; an exited poll or any poll
error yields "stopped"; and every registry entry is annotated regardless
of which polls fail. -/
theorem status_read_path_optimistic_negative (pf : Entry → Bool) (w : World) :
    (∀ e s, (e, s) ∈ dashboard pf w → s = "running" →
      pf e = false ∧ e.modal_sandbox_id ∈ w.live) ∧
    (dashboard pf w).map Prod.fst = _read_registry w ∧
    (∀ e ∈ _read_registry w, (pf e = true ∨ e.modal_sandbox_id ∉ w.live) →
      (e, "stopped") ∈ dashboard pf w) ∧
    (∀ e ∈ _read_registry w, pf e = false → e.modal_sandbox_id ∈ w.live →
      (e, "running") ∈ dashboard pf w) := by
  refine ⟨?_, ?_, ?_, ?_⟩
  · intro e s hmem hrun
    rw [dashboard, List.mem_map] at hmem
    obtain ⟨a, ha, heq⟩ := hmem
    rw [Prod.mk.injEq] at heq
    obtain ⟨rfl, rfl⟩ := heq
    cases hpb : pf a with
    | true => simp [_get_sandbox_status, hpb] at hrun
    | false =>
      by_cases hl : a.modal_sandbox_id ∈ w.live
      · exact ⟨rfl, hl⟩
      · simp [_get_sandbox_status, hpb, hl] at hrun
  · have hcomp : (Prod.fst ∘ fun entry : Entry =>
        (entry, _get_sandbox_status entry (pf entry) w.live)) = id := rfl
    rw [dashboard, List.map_map, hcomp, List.map_id]
  · intro e he hflag
    rw [dashboard, List.mem_map]
    refine ⟨e, he, ?_⟩
    rcases hflag with hpb | hl
    · simp [_get_sandbox_status, hpb]
    · cases hpb : pf e <;> simp [_get_sandbox_status, hpb, hl]
  · intro e he hpb hl
    rw [dashboard, List.mem_map]
    exact ⟨e, he, by simp [_get_sandbox_status, hpb, hl]⟩

theorem status_read_path_witness :
    (dashboard (fun _ => true) sampleWorld).map Prod.fst =
      _read_registry sampleWorld ∧
    (sampleEntry, "stopped") ∈ dashboard (fun _ => true) sampleWorld ∧
    (sampleEntry, "running") ∈ dashboard (fun _ => false) sampleWorld :=
  ⟨(status_read_path_optimistic_negative (fun _ => true) sampleWorld).2.1,
   (status_read_path_optimistic_negative (fun _ => true) sampleWorld).2.2.1
     sampleEntry (by decide) (Or.inl rfl),
   (status_read_path_optimistic_negative (fun _ => false) sampleWorld).2.2.2
     sampleEntry (by decide) rfl (by decide)⟩

/-- The registry after `_delete_sandbox` is the original one with every
entry of that id filtered out, whatever the terminate and workspace
removal sub-steps did. -/
lemma delete_registry_filter (entry : Entry) (fa : Faults) (w : World) :
    _read_registry (_delete_sandbox entry fa w).1 =
      (_read_registry w).filter (fun e => e.id != entry.id) := by
  cases hpf : fa.pollFails <;>
    cases htf : fa.terminateFails <;>
    by_cases hl : entry.modal_sandbox_id ∈ w.live <;>
    simp [_delete_sandbox, _remove_registry_entry, _write_registry,
      _read_registry, hpf, htf, hl]

/-- C6: deleting an existing entry always removes it from the registry —
afterwards `get` reports not-found and no listed entry carries that id —
regardless of whether the terminate or workspace-removal sub-steps
failed. -/
theorem delete_removes_entry_regardless (sandbox_id : String) (fa : Faults)
    (w : World) :
    _get_registry_entry sandbox_id (delete_sandbox sandbox_id fa w).1 = none ∧
    ∀ e ∈ _read_registry (delete_sandbox sandbox_id fa w).1, e.id ≠ sandbox_id := by
  cases hent : _get_registry_entry sandbox_id w with
  | none =>
    have hnone : ∀ x ∈ _read_registry w, ¬x.id = sandbox_id := by
      simpa [_get_registry_entry] using hent
    have hroute : delete_sandbox sandbox_id fa w = (w, []) := by
      simp [delete_sandbox, hent]
    rw [hroute]
    exact ⟨hent, fun e he => hnone e he⟩
  | some entry =>
    have hfind : (_read_registry w).find? (fun e => e.id == sandbox_id) = some entry := hent
    have hid : entry.id = sandbox_id := by
      simpa using List.find?_some hfind
    have hroute : delete_sandbox sandbox_id fa w = _delete_sandbox entry fa w := by
      simp [delete_sandbox, hent]
    rw [hroute]
    have hreg := delete_registry_filter entry fa w
    constructor
    · rw [_get_registry_entry]
      refine List.find?_eq_none.mpr fun x hx => ?_
      rw [hreg] at hx
      have hx2 := List.of_mem_filter hx
      simp only [bne_iff_ne, ne_eq, hid] at hx2
      simpa using hx2
    · intro e he
      rw [hreg] at he
      have he2 := List.of_mem_filter he
      simp only [bne_iff_ne, ne_eq, hid] at he2
      exact he2

theorem delete_removes_witness :
    _get_registry_entry "abc" (delete_sandbox "abc" noFaults sampleWorld).1 = none ∧
    otherEntry.id ≠ "abc" :=
  ⟨(delete_removes_entry_regardless "abc" noFaults sampleWorld).1,
   (delete_removes_entry_regardless "abc" noFaults sampleWorld).2 otherEntry (by decide)⟩

/-- C8: stop on an entry whose recorded handle is not observed live is a
pure no-op — no snapshot, no terminate, no registry write, no error — and
so is a second stop right after. -/
theorem stop_noop_when_not_live (sandbox_id : String) (entry : Entry)
    (fa : Faults) (w : World)
    (hent : _get_registry_entry sandbox_id w = some entry)
    (hdown : fa.pollFails = true ∨ entry.modal_sandbox_id ∉ w.live) :
    stop_sandbox sandbox_id fa w = (w, []) ∧
    stop_sandbox sandbox_id fa (stop_sandbox sandbox_id fa w).1 = (w, []) := by
  have h1 : stop_sandbox sandbox_id fa w = (w, []) := by
    rcases hdown with hpf | hl
    · simp [stop_sandbox, hent, hpf]
    · cases hpf : fa.pollFails
      · simp [stop_sandbox, hent, hpf, hl]
      · simp [stop_sandbox, hent, hpf]
  refine ⟨h1, ?_⟩
  rw [h1]
  exact h1

theorem stop_noop_witness :
    stop_sandbox "xyz" noFaults sampleWorld = (sampleWorld, []) ∧
    stop_sandbox "xyz" noFaults (stop_sandbox "xyz" noFaults sampleWorld).1 =
      (sampleWorld, []) :=
  stop_noop_when_not_live "xyz" otherEntry noFaults sampleWorld (by decide)
    (Or.inr (by decide))

/-- Looking an id up after `setSnapshotId` finds the same first match,
with only its `snapshot_image_id` replaced. -/
lemma find_setSnapshotId (es : List Entry) (sid ref : String) :
    (setSnapshotId es sid ref).find? (fun e => e.id == sid) =
      (es.find? (fun e => e.id == sid)).map
        (fun e => { e with snapshot_image_id := some ref }) := by
  induction es with
  | nil => simp [setSnapshotId]
  | cons e rest ih =>
    by_cases h : e.id = sid
    · simp [setSnapshotId, h, List.find?]
    · have hb : (e.id == sid) = false := by simpa using h
      simp [setSnapshotId, h, hb, List.find?, ih]

/-- C3: during stop of an entry with an observed-live handle, a successful
snapshot is recorded in the registry strictly before the terminate call;
a failed snapshot (or a failed registry write) is swallowed and the
instance is terminated all the same, so no live instance survives the
stop. -/
theorem stop_snapshot_before_terminate (sandbox_id : String) (entry : Entry)
    (fa : Faults) (w : World)
    (hent : _get_registry_entry sandbox_id w = some entry)
    (hpf : fa.pollFails = false)
    (hlive : entry.modal_sandbox_id ∈ w.live)
    (htf : fa.terminateFails = false) :
    entry.modal_sandbox_id ∉ (stop_sandbox sandbox_id fa w).1.live ∧
    (fa.snapshotFails = false → fa.writeFails = false →
      (stop_sandbox sandbox_id fa w).2 =
        [Event.snapshotCall entry.modal_sandbox_id
           (snapshotRefFor entry.modal_sandbox_id),
         Event.registryWrite (setSnapshotId (_read_registry w) sandbox_id
           (snapshotRefFor entry.modal_sandbox_id)),
         Event.terminateCall entry.modal_sandbox_id] ∧
      _get_registry_entry sandbox_id (stop_sandbox sandbox_id fa w).1 =
        some { entry with snapshot_image_id := some (snapshotRefFor entry.modal_sandbox_id) }) ∧
    (fa.snapshotFails = true →
      (stop_sandbox sandbox_id fa w).2 =
        [Event.terminateCall entry.modal_sandbox_id] ∧
      (stop_sandbox sandbox_id fa w).1.registryFile = w.registryFile) ∧
    (fa.snapshotFails = false → fa.writeFails = true →
      (stop_sandbox sandbox_id fa w).2 =
        [Event.snapshotCall entry.modal_sandbox_id
           (snapshotRefFor entry.modal_sandbox_id),
         Event.terminateCall entry.modal_sandbox_id] ∧
      (stop_sandbox sandbox_id fa w).1.registryFile = w.registryFile) := by
  have hstop : stop_sandbox sandbox_id fa w =
      ((_snapshot_and_terminate entry.modal_sandbox_id sandbox_id fa w).2.1,
       (_snapshot_and_terminate entry.modal_sandbox_id sandbox_id fa w).2.2) := by
    simp [stop_sandbox, hent, hpf, hlive]
  rw [hstop]
  refine ⟨?_, ?_, ?_, ?_⟩
  · cases hsf : fa.snapshotFails <;> cases hwf : fa.writeFails <;>
      simp [_snapshot_and_terminate, _write_registry, htf, hsf, hwf,
        List.mem_filter]
  · intro hsf hwf
    refine ⟨by simp [_snapshot_and_terminate, _write_registry, htf, hsf, hwf], ?_⟩
    have hw : _get_registry_entry sandbox_id
        ((_snapshot_and_terminate entry.modal_sandbox_id sandbox_id fa w).2.1) =
        (setSnapshotId (_read_registry w) sandbox_id
          (snapshotRefFor entry.modal_sandbox_id)).find?
          (fun e => e.id == sandbox_id) := by
      simp [_snapshot_and_terminate, _write_registry, htf, hsf, hwf,
        _get_registry_entry, _read_registry]
    have hfind : (_read_registry w).find? (fun e => e.id == sandbox_id) =
        some entry := hent
    rw [hw, find_setSnapshotId, hfind]
    rfl
  · intro hsf
    constructor <;> simp [_snapshot_and_terminate, _write_registry, htf, hsf]
  · intro hsf hwf
    constructor <;> simp [_snapshot_and_terminate, _write_registry, htf, hsf, hwf]

theorem stop_snapshot_witness :
    (5 : Nat) ∉ (stop_sandbox "abc" noFaults sampleWorld).1.live ∧
    (stop_sandbox "abc" noFaults sampleWorld).2 =
      [Event.snapshotCall 5 (snapshotRefFor 5),
       Event.registryWrite (setSnapshotId (_read_registry sampleWorld) "abc"
         (snapshotRefFor 5)),
       Event.terminateCall 5] ∧
    _get_registry_entry "abc" (stop_sandbox "abc" noFaults sampleWorld).1 =
      some { sampleEntry with snapshot_image_id := some (snapshotRefFor 5) } := by
  have h := stop_snapshot_before_terminate "abc" sampleEntry noFaults
    sampleWorld (by decide) rfl (by decide) rfl
  exact ⟨h.1, (h.2.1 rfl rfl).1, (h.2.1 rfl rfl).2⟩

/-- The platform create request issued by `_start_sandbox` (built from
the entry in effect after the first phase, exactly as in the source). -/
def startReq (entry : Entry) (fa : Faults) (w : World) : CreateRequest :=
  { name := "opencode-" ++ (_start_phase1 entry fa w).1.id,
    cpu := (_start_phase1 entry fa w).1.cpu,
    memory := (_start_phase1 entry fa w).1.memory,
    gpu := gpuSpec (_start_phase1 entry fa w).1.gpu_type
      (_start_phase1 entry fa w).1.gpu_count,
    image := _resolve_sandbox_image (_start_phase1 entry fa w).1 fa.imageFails,
    workdir := WORKSPACE_ROOT ++ "/" ++ (_start_phase1 entry fa w).1.id,
    port := OPENCODE_PORT, timeout := SANDBOX_TIMEOUT }

/-- When the platform create call succeeds, `_start_sandbox` reduces to
the phase-1 state extended by the create call and the registry handle
update. -/
lemma start_sandbox_reduce (entry : Entry) (fa : Faults) (w : World)
    (hcf : fa.createFails = false) :
    _start_sandbox entry fa w =
      (Except.ok { (_start_phase1 entry fa w).1 with
         modal_sandbox_id := (_start_phase1 entry fa w).2.1.nextHandle },
       { registryFile := RegistryFile.stored (setHandleFirst
           (_read_registry (_start_phase1 entry fa w).2.1)
           (_start_phase1 entry fa w).1.id
           (_start_phase1 entry fa w).2.1.nextHandle),
         live := (_start_phase1 entry fa w).2.1.live ++
           [(_start_phase1 entry fa w).2.1.nextHandle],
         nextHandle := (_start_phase1 entry fa w).2.1.nextHandle + 1,
         nextId := (_start_phase1 entry fa w).2.1.nextId },
       (_start_phase1 entry fa w).2.2 ++
         [Event.createCall ((_start_phase1 entry fa w).2.1.nextHandle)
            (startReq entry fa w),
          Event.registryWrite (setHandleFirst
            (_read_registry (_start_phase1 entry fa w).2.1)
            (_start_phase1 entry fa w).1.id
            (_start_phase1 entry fa w).2.1.nextHandle)]) := by
  simp [_start_sandbox, _write_registry, _read_registry, startReq, hcf]

/-- Phase 1 of start keeps the id and the recorded resources of the entry
it was given (the snapshot recording only touches `snapshot_image_id`),
provided the given entry is the registry's first match for its id. -/
lemma start_phase1_fields (entry : Entry) (fa : Faults) (w : World)
    (hent : _get_registry_entry entry.id w = some entry) :
    (_start_phase1 entry fa w).1.id = entry.id ∧
    (_start_phase1 entry fa w).1.gpu_type = entry.gpu_type ∧
    (_start_phase1 entry fa w).1.gpu_count = entry.gpu_count ∧
    (_start_phase1 entry fa w).1.cpu = entry.cpu ∧
    (_start_phase1 entry fa w).1.memory = entry.memory := by
  have hfind : (_read_registry w).find? (fun e => e.id == entry.id) =
      some entry := hent
  cases hpf : fa.pollFails with
  | true => simp [_start_phase1, hpf]
  | false =>
    by_cases hl : entry.modal_sandbox_id ∈ w.live
    · cases htf : fa.terminateFails with
      | true =>
        simp [_start_phase1, _snapshot_and_terminate, hpf, hl, htf]
      | false =>
        have hfind1 := hfind
        simp [_read_registry] at hfind1
        cases hsf : fa.snapshotFails <;> cases hwr : fa.writeFails <;>
          simp [_start_phase1, _snapshot_and_terminate, _write_registry,
            _get_registry_entry, _read_registry, find_setSnapshotId,
            hpf, hl, htf, hsf, hwr, hfind1]
    · simp [_start_phase1, hpf, hl]

/-- C9: both create and start attach a GPU to the platform create request
exactly when a non-empty gpu type and a strictly positive gpu count are
present together; a type with a non-positive count, or a count with an
empty type, yields no GPU. -/
theorem gpu_attached_iff_type_and_count (gpu_type : String) (gpu_count : Int) :
    ((gpuSpec gpu_type gpu_count).isSome = true ↔
      gpu_type ≠ "" ∧ 0 < gpu_count) ∧
    (∀ name cpu memory fa w, fa.createFails = false →
      ∃ h es,
        (_create_sandbox name cpu memory gpu_type gpu_count fa w).2.2 =
          Event.createCall h
            { name := "opencode-" ++ toString w.nextId, cpu := cpu,
              memory := memory, gpu := gpuSpec gpu_type gpu_count,
              image := Image.base,
              workdir := WORKSPACE_ROOT ++ "/" ++ toString w.nextId,
              port := OPENCODE_PORT, timeout := SANDBOX_TIMEOUT } :: es) ∧
    (∀ entry fa w, _get_registry_entry entry.id w = some entry →
      entry.gpu_type = gpu_type → entry.gpu_count = gpu_count →
      fa.createFails = false →
      ∃ h req tr1 es,
        (_start_sandbox entry fa w).2.2 = tr1 ++ Event.createCall h req :: es ∧
        req.gpu = gpuSpec gpu_type gpu_count) := by
  refine ⟨?_, ?_, ?_⟩
  · by_cases hc : gpu_type ≠ "" ∧ 0 < gpu_count <;> simp [gpuSpec, hc]
  · intro name cpu memory fa w hcf
    refine ⟨w.nextHandle,
      [Event.registryWrite (_read_registry w ++
        [{ id := toString w.nextId, name := name,
           modal_sandbox_id := w.nextHandle, created_at := "", cpu := cpu,
           memory := memory, gpu_type := gpu_type, gpu_count := gpu_count,
           snapshot_image_id := none }])], ?_⟩
    simp [_create_sandbox, _add_registry_entry, _write_registry,
      _read_registry, hcf]
  · intro entry fa w hent hgt hgc hcf
    have hf := start_phase1_fields entry fa w hent
    refine ⟨(_start_phase1 entry fa w).2.1.nextHandle, startReq entry fa w,
      (_start_phase1 entry fa w).2.2,
      [Event.registryWrite (setHandleFirst
        (_read_registry (_start_phase1 entry fa w).2.1)
        (_start_phase1 entry fa w).1.id
        (_start_phase1 entry fa w).2.1.nextHandle)], ?_, ?_⟩
    · rw [start_sandbox_reduce entry fa w hcf]
    · rw [startReq]
      rw [hf.2.1, hf.2.2.1, hgt, hgc]

theorem gpu_attached_witness :
    (gpuSpec "A100" 2).isSome = true ∧
    (∃ h req tr1 es,
      (_start_sandbox otherEntry noFaults sampleWorld).2.2 =
        tr1 ++ Event.createCall h req :: es ∧
      req.gpu = gpuSpec "A100" 2) :=
  ⟨(gpu_attached_iff_type_and_count "A100" 2).1.mpr (by decide),
   (gpu_attached_iff_type_and_count "A100" 2).2.2 otherEntry noFaults
     sampleWorld (by decide) rfl rfl rfl⟩

/-- Faults used by the C4 counterexample: the poll of the old handle and
the loading of the snapshot image both raise; the create call succeeds. -/
def cexFaults : Faults := { pollFails := true, imageFails := true }

/-- Empty world used by the C4 counterexample. -/
def cexWorld : World :=
  { registryFile := RegistryFile.stored [], live := [], nextHandle := 0,
    nextId := 0 }

/-- C4 counterexample: an entry with a snapshot reference set for which
start boots from the base image, because loading the snapshot image from
the platform fails — the claim "if the entry has a snapshot reference
set, the instance is booted from that snapshot image" is false at this
input. -/
theorem boot_image_claim_cex :
    otherEntry.snapshot_image_id = some "im-7" ∧
    (_start_sandbox otherEntry cexFaults cexWorld).2.2 =
      [Event.createCall 0
        { name := "opencode-xyz", cpu := 4, memory := 8192,
          gpu := some "A100:2", image := Image.base,
          workdir := "/data/workspaces/xyz", port := 4096, timeout := 86400 },
       Event.registryWrite []] ∧
    Image.base ≠ Image.snapshot "im-7" := by
  refine ⟨rfl, ?_, by decide⟩
  decide

/-- C4 (amended): start boots from the recorded snapshot image when the
snapshot reference is set, non-empty and the platform resolves that image
successfully; when the reference is unset, empty, or resolving it fails,
start falls back to the base image.  The create request issued by start
carries exactly the image chosen by this rule from the entry in effect. -/
theorem start_boot_image_choice_amended :
    (∀ e s, e.snapshot_image_id = some s → s ≠ "" →
      _resolve_sandbox_image e false = Image.snapshot s) ∧
    (∀ e f, e.snapshot_image_id = none →
      _resolve_sandbox_image e f = Image.base) ∧
    (∀ e, _resolve_sandbox_image e true = Image.base) ∧
    (∀ e f, e.snapshot_image_id = some "" →
      _resolve_sandbox_image e f = Image.base) ∧
    (∀ entry fa w, fa.createFails = false →
      ∃ h es,
        (_start_sandbox entry fa w).2.2 =
          (_start_phase1 entry fa w).2.2 ++
            Event.createCall h (startReq entry fa w) :: es ∧
        (startReq entry fa w).image =
          _resolve_sandbox_image (_start_phase1 entry fa w).1 fa.imageFails) := by
  refine ⟨?_, ?_, ?_, ?_, ?_⟩
  · intro e s hs hne
    simp [_resolve_sandbox_image, hs, hne]
  · intro e f hn
    simp [_resolve_sandbox_image, hn]
  · intro e
    cases he : e.snapshot_image_id <;> simp [_resolve_sandbox_image, he]
  · intro e f hs
    simp [_resolve_sandbox_image, hs]
  · intro entry fa w hcf
    refine ⟨(_start_phase1 entry fa w).2.1.nextHandle,
      [Event.registryWrite (setHandleFirst
        (_read_registry (_start_phase1 entry fa w).2.1)
        (_start_phase1 entry fa w).1.id
        (_start_phase1 entry fa w).2.1.nextHandle)], ?_, rfl⟩
    rw [start_sandbox_reduce entry fa w hcf]

theorem boot_image_amended_witness :
    _resolve_sandbox_image otherEntry false = Image.snapshot "im-7" ∧
    _resolve_sandbox_image sampleEntry false = Image.base ∧
    (∃ h es,
      (_start_sandbox otherEntry noFaults sampleWorld).2.2 =
        (_start_phase1 otherEntry noFaults sampleWorld).2.2 ++
          Event.createCall h (startReq otherEntry noFaults sampleWorld) :: es ∧
      (startReq otherEntry noFaults sampleWorld).image =
        _resolve_sandbox_image (_start_phase1 otherEntry noFaults sampleWorld).1
          noFaults.imageFails) :=
  ⟨start_boot_image_choice_amended.1 otherEntry "im-7" rfl (by decide),
   start_boot_image_choice_amended.2.1 sampleEntry false rfl,
   start_boot_image_choice_amended.2.2.2.2 otherEntry noFaults sampleWorld rfl⟩

/-- Faults used by the C2 counterexample: only the terminate call of the
old instance raises; poll, snapshot, registry write and create all
succeed. -/
def cex2Faults : Faults := { terminateFails := true }

/-- C2 counterexample: the old handle (5) is observed live and the
terminate call fails; `_start_sandbox` swallows the failure, proceeds to
create the new instance (handle 9) and returns it as a success — leaving
BOTH the old and the new handle live, so after this successful start two
live handles are associated with the entry, refuting the claim at this
input. -/
theorem start_duplicate_live_cex :
    cex2Faults.pollFails = false ∧
    sampleEntry.modal_sandbox_id ∈ sampleWorld.live ∧
    (_start_sandbox sampleEntry cex2Faults sampleWorld).1 =
      Except.ok { sampleEntry with modal_sandbox_id := 9 } ∧
    sampleEntry.modal_sandbox_id ∈
      (_start_sandbox sampleEntry cex2Faults sampleWorld).2.1.live ∧
    (9 : Nat) ∈ (_start_sandbox sampleEntry cex2Faults sampleWorld).2.1.live ∧
    sampleEntry.modal_sandbox_id ≠ 9 :=
  ⟨rfl, by decide, rfl, by decide, by decide, by decide⟩

/-- C2 (amended): for an entry whose recorded handle is still observed
live (under fresh handle allocation and a succeeding create call), start
attempts snapshot-then-terminate of the old instance before creating the
new one.  When the terminate call succeeds, the terminate strictly
precedes the create in the trace and afterwards the old handle is dead
while the new handle — and only it — is live for the entry.  When the
terminate call fails, the failure is swallowed and the start still
returns success with BOTH the old and the new handle live (duplicate live
instances are possible). -/
theorem start_live_handle_amended (entry : Entry) (fa : Faults) (w : World)
    (hfresh : ∀ h ∈ w.live, h < w.nextHandle)
    (hpf : fa.pollFails = false)
    (hlive : entry.modal_sandbox_id ∈ w.live)
    (hcf : fa.createFails = false) :
    (fa.terminateFails = false →
      ∃ e', (_start_sandbox entry fa w).1 = Except.ok e' ∧
        e'.modal_sandbox_id ≠ entry.modal_sandbox_id ∧
        entry.modal_sandbox_id ∉ (_start_sandbox entry fa w).2.1.live ∧
        e'.modal_sandbox_id ∈ (_start_sandbox entry fa w).2.1.live ∧
        ∃ req pre post,
          (_start_sandbox entry fa w).2.2 =
            pre ++ Event.terminateCall entry.modal_sandbox_id ::
              Event.createCall e'.modal_sandbox_id req :: post) ∧
    (fa.terminateFails = true →
      ∃ e', (_start_sandbox entry fa w).1 = Except.ok e' ∧
        e'.modal_sandbox_id ≠ entry.modal_sandbox_id ∧
        entry.modal_sandbox_id ∈ (_start_sandbox entry fa w).2.1.live ∧
        e'.modal_sandbox_id ∈ (_start_sandbox entry fa w).2.1.live) := by
  have hnewne : w.nextHandle ≠ entry.modal_sandbox_id :=
    Nat.ne_of_gt (hfresh _ hlive)
  constructor
  · intro htf
    have hph : (_start_phase1 entry fa w).2.1.live =
          w.live.filter (fun x => x != entry.modal_sandbox_id) ∧
        (_start_phase1 entry fa w).2.1.nextHandle = w.nextHandle ∧
        ∃ pre0, (_start_phase1 entry fa w).2.2 =
          pre0 ++ [Event.terminateCall entry.modal_sandbox_id] := by
      cases hsf : fa.snapshotFails with
      | true =>
        refine ⟨?_, ?_, [], ?_⟩ <;>
          simp [_start_phase1, _snapshot_and_terminate, hpf, hlive, htf, hsf]
      | false =>
        cases hwr : fa.writeFails with
        | true =>
          refine ⟨?_, ?_, [Event.snapshotCall entry.modal_sandbox_id
            (snapshotRefFor entry.modal_sandbox_id)], ?_⟩ <;>
            simp [_start_phase1, _snapshot_and_terminate, hpf, hlive, htf,
              hsf, hwr]
        | false =>
          refine ⟨?_, ?_, [Event.snapshotCall entry.modal_sandbox_id
              (snapshotRefFor entry.modal_sandbox_id),
            Event.registryWrite (setSnapshotId (_read_registry w) entry.id
              (snapshotRefFor entry.modal_sandbox_id))], ?_⟩ <;>
            simp [_start_phase1, _snapshot_and_terminate, _write_registry,
              _read_registry, hpf, hlive, htf, hsf, hwr]
    obtain ⟨hlive1, hnh1, pre0, htr1⟩ := hph
    rw [start_sandbox_reduce entry fa w hcf]
    refine ⟨_, rfl, ?_, ?_, ?_, startReq entry fa w, pre0,
      [Event.registryWrite (setHandleFirst
        (_read_registry (_start_phase1 entry fa w).2.1)
        (_start_phase1 entry fa w).1.id
        (_start_phase1 entry fa w).2.1.nextHandle)], ?_⟩
    · dsimp only
      rw [hnh1]
      exact hnewne
    · dsimp only
      rw [hlive1, hnh1]
      simp [List.mem_filter]
      exact fun hh => hnewne hh.symm
    · dsimp only
      rw [hlive1, hnh1]
      simp
    · dsimp only
      rw [htr1]
      simp [List.append_assoc]
  · intro htf
    have hph : (_start_phase1 entry fa w).2.1.live = w.live ∧
        (_start_phase1 entry fa w).2.1.nextHandle = w.nextHandle := by
      cases hsf : fa.snapshotFails <;> cases hwr : fa.writeFails <;>
        constructor <;>
        simp [_start_phase1, _snapshot_and_terminate, _write_registry,
          hpf, hlive, htf, hsf, hwr]
    obtain ⟨hlive1, hnh1⟩ := hph
    rw [start_sandbox_reduce entry fa w hcf]
    refine ⟨_, rfl, ?_, ?_, ?_⟩
    · dsimp only
      rw [hnh1]
      exact hnewne
    · dsimp only
      rw [hlive1]
      simp [hlive]
    · dsimp only
      rw [hlive1, hnh1]
      simp

theorem start_live_handle_amended_witness :
    (∃ e', (_start_sandbox sampleEntry noFaults sampleWorld).1 = Except.ok e' ∧
      e'.modal_sandbox_id ≠ sampleEntry.modal_sandbox_id ∧
      sampleEntry.modal_sandbox_id ∉
        (_start_sandbox sampleEntry noFaults sampleWorld).2.1.live ∧
      e'.modal_sandbox_id ∈
        (_start_sandbox sampleEntry noFaults sampleWorld).2.1.live ∧
      ∃ req pre post,
        (_start_sandbox sampleEntry noFaults sampleWorld).2.2 =
          pre ++ Event.terminateCall sampleEntry.modal_sandbox_id ::
            Event.createCall e'.modal_sandbox_id req :: post) ∧
    (∃ e', (_start_sandbox sampleEntry cex2Faults sampleWorld).1 = Except.ok e' ∧
      e'.modal_sandbox_id ≠ sampleEntry.modal_sandbox_id ∧
      sampleEntry.modal_sandbox_id ∈
        (_start_sandbox sampleEntry cex2Faults sampleWorld).2.1.live ∧
      e'.modal_sandbox_id ∈
        (_start_sandbox sampleEntry cex2Faults sampleWorld).2.1.live) :=
  ⟨(start_live_handle_amended sampleEntry noFaults sampleWorld (by decide) rfl
      (by decide) rfl).1 rfl,
   (start_live_handle_amended sampleEntry cex2Faults sampleWorld (by decide) rfl
      (by decide) rfl).2 rfl⟩

end OpencodeModal
